import Mathlib

/-!
Verification of the STM32L496xx target descriptor
(pyocd/target/builtin/target_STM32L496xx.py) and of the generic
flash-programming engine behaviour the specification describes for it.

The descriptor itself (DBGMCU register values, FLASH_ALGO dictionary,
MEMORY_MAP, post_connect_hook) is embedded directly from the source file.
The orchestration engine (sector lookup, erase-set computation, image
chunking, the double-buffered programming loop, the loader) is not part of
the source file; those definitions are modelled from the specification and
are marked as such in their doc comments.
-/

namespace DBGMCU

def CR : Nat := 0xE0042004

def CR_VALUE : Nat := 0x7

def APB1FZR1 : Nat := 0xE0042008

def APB1FZR1_VALUE : Nat := 0x86e01c3f

def APB1FZR2 : Nat := 0xE004200C

def APB1FZR2_VALUE : Nat := 0x00000022

def APB2FZR : Nat := 0xE0042010

def APB2FZR_VALUE : Nat := 0x00072800

end DBGMCU

/-- The fields of the FLASH_ALGO dictionary of the source file. -/
structure FlashAlgo where
  load_address : Nat
  instructions : List Nat
  pc_init : Nat
  pc_unInit : Nat
  pc_program_page : Nat
  pc_erase_sector : Nat
  pc_eraseAll : Nat
  static_base : Nat
  begin_stack : Nat
  end_stack : Nat
  begin_data : Nat
  page_size : Nat
  analyzer_supported : Bool
  analyzer_address : Nat
  page_buffers : List Nat
  min_program_length : Nat
  ro_start : Nat
  ro_size : Nat
  rw_start : Nat
  rw_size : Nat
  zi_start : Nat
  zi_size : Nat
  flash_start : Nat
  flash_size : Nat
  sector_sizes : List (Nat × Nat)
deriving DecidableEq

/-- The instruction image of FLASH_ALGO, word for word from the source. -/
def flashAlgoInstructions : List Nat := [
    0xe7fdbe00, 0x8f4ff3bf, 0x487a4770, 0x497a6800, 0x0d000500, 0xd0051840, 0xd003282d, 0xd001282f,
    0x47702001, 0x47702000, 0x6a004874, 0x0fc00280, 0xb5004770, 0xf7ff4602, 0x2801ffe8, 0xf7ffd108,
    0x2801fff3, 0x486ed104, 0xd3014282, 0xbd002001, 0xbd002000, 0x4602b500, 0xffd7f7ff, 0xd0022801,
    0x0d8002d0, 0x4967bd00, 0x40080ad0, 0xd5f90311, 0x300130ff, 0x4861bd00, 0x60814963, 0x60814963,
    0x60012100, 0x61014962, 0x03c06a00, 0x4862d406, 0x60014960, 0x60412106, 0x60814960, 0x47702000,
    0x49562001, 0x614807c0, 0x47702000, 0x47702001, 0x49574852, 0x13c16101, 0x69416141, 0x04122201,
    0x61414311, 0x4a544956, 0x6011e000, 0x03db6903, 0x2100d4fb, 0x46086141, 0xb5104770, 0xf7ff4604,
    0x4603ffa8, 0xf7ff4620, 0x4944ffb5, 0x610c4c48, 0x02d800c2, 0x43021c92, 0x6948614a, 0x04122201,
    0x61484310, 0x8f4ff3bf, 0x4a434845, 0x6010e000, 0x03db690b, 0x2000d4fb, 0x69086148, 0xd0014020,
    0x2001610c, 0xb5f0bd10, 0xb0884b34, 0x611c4c38, 0x615c2400, 0xe059466e, 0x24014b30, 0x2908615c,
    0x6813d315, 0x68536003, 0xf3bf6043, 0x4c348f4f, 0x4b2a4d31, 0x602ce000, 0x03ff691f, 0x691bd4fb,
    0x42234c2b, 0x3008d13c, 0x32083908, 0x2300e03e, 0x7814e004, 0x1c52009d, 0x1c5b5174, 0xd3f8428b,
    0x24ff2300, 0x1a6d2508, 0x185fe003, 0x51f400bf, 0x429d1c5b, 0x9b01d8f9, 0x021b9900, 0x990218cb,
    0x04099c03, 0x19090624, 0x91001859, 0x99049b05, 0x18c9021b, 0x9c079b06, 0x0624041b, 0x18c9191b,
    0x99009101, 0x99016001, 0xf3bf6041, 0x4b0b8f4f, 0x691c2100, 0xd4fc03e4, 0x4c0d691b, 0xd0054223,
    0x480b4906, 0x20016108, 0xbdf0b008, 0xd1a32900, 0xe7f92000, 0xe0042000, 0xfffffbcb, 0x40022000,
    0x08080000, 0x000002ff, 0x45670123, 0xcdef89ab, 0x0000c3fa, 0x00005555, 0x40003000, 0x00000fff,
    0x0000aaaa, 0x00000000]

/-- The FLASH_ALGO descriptor, field for field from the source file. -/
def FLASH_ALGO : FlashAlgo where
  load_address := 0x20000000
  instructions := flashAlgoInstructions
  pc_init := 0x20000077
  pc_unInit := 0x200000a1
  pc_program_page := 0x20000127
  pc_erase_sector := 0x200000db
  pc_eraseAll := 0x200000b1
  static_base := 0x20000000 + 0x00000004 + 0x00000220
  begin_stack := 0x20001a30
  end_stack := 0x20000a30
  begin_data := 0x20000000 + 0x1000
  page_size := 0x400
  analyzer_supported := false
  analyzer_address := 0x00000000
  page_buffers := [0x20000230, 0x20000630]
  min_program_length := 0x400
  ro_start := 0x4
  ro_size := 0x220
  rw_start := 0x224
  rw_size := 0x4
  zi_start := 0x228
  zi_size := 0x0
  flash_start := 0x8000000
  flash_size := 0x100000
  sector_sizes := [(0x0, 0x800)]

inductive RegionKind where
  | flash
  | ram
deriving DecidableEq

/-- One region of the memory map, with the keyword arguments of the Python
FlashRegion and RamRegion constructors as fields. -/
structure MemRegion where
  kind : RegionKind
  name : String
  start : Nat
  length : Nat
  sector_size : Option Nat
  page_size : Option Nat
  is_boot_memory : Bool
  algo : Option FlashAlgo
deriving DecidableEq

/-- A region covers an address when the address lies in
[start, start + length). -/
def MemRegion.containsAddr (r : MemRegion) (addr : Nat) : Prop :=
  r.start ≤ addr ∧ addr < r.start + r.length

instance (r : MemRegion) (addr : Nat) : Decidable (r.containsAddr addr) := by
  unfold MemRegion.containsAddr; infer_instance

namespace STM32L496xx

/-- FlashRegion of MEMORY_MAP, keyword for keyword from the source. -/
def flashRegion : MemRegion where
  kind := RegionKind.flash
  name := "flash"
  start := 0x08000000
  length := 0x100000
  sector_size := some 0x800
  page_size := some 0x400
  is_boot_memory := true
  algo := some FLASH_ALGO

/-- First RamRegion of MEMORY_MAP. -/
def sram1Region : MemRegion where
  kind := RegionKind.ram
  name := "sram1"
  start := 0x20000000
  length := 0x40000
  sector_size := none
  page_size := none
  is_boot_memory := false
  algo := none

/-- Second RamRegion of MEMORY_MAP. -/
def sram2Region : MemRegion where
  kind := RegionKind.ram
  name := "sram2"
  start := 0x20040000
  length := 0x10000
  sector_size := none
  page_size := none
  is_boot_memory := false
  algo := none

/-- The MEMORY_MAP of the STM32L496xx class, in source order. -/
def MEMORY_MAP : List MemRegion := [flashRegion, sram1Region, sram2Region]

/-- Semantics of one write32 call of the Target Access Interface: store a
word at a register address, leaving every other address unchanged. -/
def write32 (addr val : Nat) (s : Nat → Nat) : Nat → Nat :=
  fun a => if a = addr then val else s a

/-- The (address, value) pairs written by post_connect_hook, in the order
of the four write32 calls of the source. -/
def postConnectWrites : List (Nat × Nat) :=
  [(DBGMCU.CR, DBGMCU.CR_VALUE),
   (DBGMCU.APB1FZR1, DBGMCU.APB1FZR1_VALUE),
   (DBGMCU.APB1FZR2, DBGMCU.APB1FZR2_VALUE),
   (DBGMCU.APB2FZR, DBGMCU.APB2FZR_VALUE)]

/-- Effect of post_connect_hook on the target state: the four write32
calls of the source, applied in order. -/
def post_connect_hook (s : Nat → Nat) : Nat → Nat :=
  postConnectWrites.foldl (fun st p => write32 p.1 p.2 st) s

end STM32L496xx

/-- Modelled from the spec: the sector lookup function of the programming
engine (the engine itself is not part of the source file). Given an
absolute flash offset it scans the sector table and applies the last entry
whose offset is at most the given offset. -/
def sectorSizeFor (table : List (Nat × Nat)) (off : Nat) : Option Nat :=
  table.foldl (fun acc e => if e.1 ≤ off then some e.2 else acc) none

/-- Two half-open intervals [a, b) and [c, d) are disjoint. -/
def disjointIvl (a b c d : Nat) : Prop := b ≤ c ∨ d ≤ a

instance (a b c d : Nat) : Decidable (disjointIvl a b c d) := by
  unfold disjointIvl; infer_instance

/-- End address of the loaded instruction image:
load_address + 4 * len(instructions). -/
def imageEnd : Nat := FLASH_ALGO.load_address + 4 * FLASH_ALGO.instructions.length

/-- Modelled from the spec: the erase-set computation of the orchestrator
(the orchestrator is not part of the source file): the minimal covering
set of sector start offsets overlapping the write range
[addr, addr + len), for a uniform sector size. -/
def sectorsToErase (secSize addr len : Nat) : List Nat :=
  if len = 0 ∨ secSize = 0 then []
  else (List.range ((addr + len - 1) / secSize + 1 - addr / secSize)).map
    (fun i => (addr / secSize + i) * secSize)

/-- Modelled from the spec: the chunking step of the orchestrator (not
part of the source file): split the source image into pieces no larger
than the minimum program length, in address order. -/
def chunkImage (minLen : Nat) (img : List Nat) : List (List Nat) :=
  if _h : minLen = 0 then []
  else
    match img with
    | [] => []
    | a :: rest =>
        (a :: rest).take minLen :: chunkImage minLen ((a :: rest).drop minLen)
termination_by img.length
decreasing_by
  simp [List.length_drop]
  omega

/-- Events of a double-buffered programming session: filling a page
buffer with the data of a chunk, starting a pc_program_page call on a
buffer, and that call returning. The Bool selects one of the two page
buffers. -/
inductive BufEvent where
  | fillBuf : Bool → Nat → BufEvent
  | progStart : Bool → Nat → BufEvent
  | progEnd : Bool → Nat → BufEvent
deriving DecidableEq

/-- Buffer used for chunk i: the two page buffers alternate. -/
def bufOf (i : Nat) : Bool := i % 2 == 1

/-- Address of each of the two page buffers, from the descriptor. -/
def pageBufferAddr (b : Bool) : Nat := if b then 0x20000630 else 0x20000230

/-- Modelled from the spec: the steady state of the double-buffered
programming loop of the orchestrator (not part of the source file). With
the program call for chunk cur in flight, and rem further chunks to go, it
fills the other buffer with the next chunk, waits for the in-flight call
to return, starts the next call, and repeats. -/
def progLoop (cur rem : Nat) : List BufEvent :=
  match rem with
  | 0 => [BufEvent.progEnd (bufOf cur) cur]
  | r + 1 =>
      BufEvent.fillBuf (bufOf (cur + 1)) (cur + 1) ::
      BufEvent.progEnd (bufOf cur) cur ::
      BufEvent.progStart (bufOf (cur + 1)) (cur + 1) ::
      progLoop (cur + 1) r

/-- Modelled from the spec: the full event trace of programming n chunks
with double buffering: fill the first buffer, start its program call, then
run the steady-state loop. -/
def dbTrace : Nat → List BufEvent
  | 0 => []
  | n + 1 =>
      BufEvent.fillBuf (bufOf 0) 0 ::
      BufEvent.progStart (bufOf 0) 0 ::
      progLoop 0 n

/-- Update the pending map at one buffer. -/
def updatePending (p : Bool → Bool) (b : Bool) (v : Bool) : Bool → Bool :=
  fun x => if x = b then v else p x

/-- Scans a trace keeping, for each buffer, whether a pc_program_page call
issued against it is still outstanding; a fill of a buffer is admissible
only while no call on that same buffer is outstanding. -/
def fillsSafe : List BufEvent → (Bool → Bool) → Bool
  | [], _ => true
  | BufEvent.fillBuf b _ :: rest, pending => !pending b && fillsSafe rest pending
  | BufEvent.progStart b _ :: rest, pending =>
      fillsSafe rest (updatePending pending b true)
  | BufEvent.progEnd b _ :: rest, pending =>
      fillsSafe rest (updatePending pending b false)

/-- Claim C7: the stack bounds of the descriptor satisfy
begin_stack = 0x20001a30, end_stack = 0x20000a30 and
begin_stack > end_stack, consistent with a downward-growing stack. -/
theorem stack_bounds_downward :
    FLASH_ALGO.begin_stack = 0x20001a30 ∧
    FLASH_ALGO.end_stack = 0x20000a30 ∧
    FLASH_ALGO.end_stack < FLASH_ALGO.begin_stack := by
  decide

set_option maxRecDepth 4000 in
/-- Claim C9: the section layout tiles the instruction image exactly:
ro_start + ro_size = rw_start, rw_start + rw_size = zi_start, zi_size = 0,
zi_start + zi_size equals the byte length 4 * len(instructions) = 0x228 of
the image, and static_base = load_address + rw_start. -/
theorem section_layout_tiles_image :
    FLASH_ALGO.ro_start = 0x4 ∧
    FLASH_ALGO.ro_size = 0x220 ∧
    FLASH_ALGO.rw_start = 0x224 ∧
    FLASH_ALGO.rw_size = 0x4 ∧
    FLASH_ALGO.zi_start = 0x228 ∧
    FLASH_ALGO.zi_size = 0 ∧
    FLASH_ALGO.ro_start + FLASH_ALGO.ro_size = FLASH_ALGO.rw_start ∧
    FLASH_ALGO.rw_start + FLASH_ALGO.rw_size = FLASH_ALGO.zi_start ∧
    FLASH_ALGO.zi_start + FLASH_ALGO.zi_size
      = 4 * FLASH_ALGO.instructions.length ∧
    4 * FLASH_ALGO.instructions.length = 0x228 ∧
    FLASH_ALGO.static_base = FLASH_ALGO.load_address + FLASH_ALGO.rw_start := by
  decide

set_option maxRecDepth 4000 in
/-- Claim C10: the FlashRegion and the FLASH_ALGO descriptor it references
agree on geometry: same start, same length, same page size, the uniform
sector size of the sector table, and min_program_length = page_size. -/
theorem flash_region_geometry_agreement :
    STM32L496xx.flashRegion.algo = some FLASH_ALGO ∧
    STM32L496xx.flashRegion.start = FLASH_ALGO.flash_start ∧
    FLASH_ALGO.flash_start = 0x08000000 ∧
    STM32L496xx.flashRegion.length = FLASH_ALGO.flash_size ∧
    FLASH_ALGO.flash_size = 0x100000 ∧
    STM32L496xx.flashRegion.page_size = some FLASH_ALGO.page_size ∧
    FLASH_ALGO.page_size = 0x400 ∧
    STM32L496xx.flashRegion.sector_size = some 0x800 ∧
    FLASH_ALGO.sector_sizes = [(0x0, 0x800)] ∧
    FLASH_ALGO.min_program_length = FLASH_ALGO.page_size := by
  decide

/-- Claim C1: for the sector table [(0x0, 0x800)] and flash_size 0x100000,
the sector lookup yields exactly the size 0x800 for every offset below
flash_size, the table is sorted ascending by offset, 512 sectors of size
0x800 tile the range exactly, and every offset below flash_size lies in
exactly one sector interval. -/
theorem sector_lookup_partition (off : Nat) (h : off < FLASH_ALGO.flash_size) :
    sectorSizeFor FLASH_ALGO.sector_sizes off = some 0x800 ∧
    List.Pairwise (fun a b => a.1 < b.1) FLASH_ALGO.sector_sizes ∧
    FLASH_ALGO.flash_size = 512 * 0x800 ∧
    ∃! k : Nat, k * 0x800 ≤ off ∧ off < (k + 1) * 0x800 ∧ k < 512 := by
  have h1M : off < 0x100000 := h
  refine ⟨by simp [sectorSizeFor, FLASH_ALGO], by decide, by decide, ?_⟩
  have hdm := Nat.div_add_mod off 0x800
  have hm : off % 0x800 < 0x800 := Nat.mod_lt off (by decide)
  refine ⟨off / 0x800, ⟨?_, ?_, ?_⟩, ?_⟩
  · omega
  · omega
  · omega
  · intro k hk
    obtain ⟨hk1, hk2, hk3⟩ := hk
    omega

/-- Witness for C1 at the concrete offset 0x12345. -/
theorem sector_lookup_partition_witness :
    sectorSizeFor FLASH_ALGO.sector_sizes 0x12345 = some 0x800 :=
  (sector_lookup_partition 0x12345 (by decide)).1

/-- Claim C4: the three MEMORY_MAP regions are ordered ascending by start
address and pairwise non-overlapping, so any address is covered by at most
one region (it resolves to exactly one region or to unmapped). -/
theorem memory_map_regions_disjoint :
    List.Pairwise (fun a b => a.start < b.start) STM32L496xx.MEMORY_MAP ∧
    List.Pairwise (fun a b => a.start + a.length ≤ b.start)
      STM32L496xx.MEMORY_MAP ∧
    ∀ addr : Nat, ∀ r1 ∈ STM32L496xx.MEMORY_MAP, ∀ r2 ∈ STM32L496xx.MEMORY_MAP,
      r1.containsAddr addr → r2.containsAddr addr → r1 = r2 := by
  refine ⟨?_, ?_, ?_⟩
  · simp [STM32L496xx.MEMORY_MAP, STM32L496xx.flashRegion,
      STM32L496xx.sram1Region, STM32L496xx.sram2Region]
  · simp [STM32L496xx.MEMORY_MAP, STM32L496xx.flashRegion,
      STM32L496xx.sram1Region, STM32L496xx.sram2Region]
  · intro addr r1 hr1 r2 hr2 hc1 hc2
    simp only [STM32L496xx.MEMORY_MAP, List.mem_cons, List.mem_singleton,
      List.not_mem_nil, or_false] at hr1 hr2
    rcases hr1 with h1 | h1 | h1 <;> rcases hr2 with h2 | h2 | h2 <;>
      subst h1 <;> subst h2 <;>
      simp only [MemRegion.containsAddr, STM32L496xx.flashRegion,
        STM32L496xx.sram1Region, STM32L496xx.sram2Region] at hc1 hc2 <;>
      first
        | rfl
        | omega

/-- Claim C5: post_connect_hook performs exactly the four write32
operations (0xE0042004, 0x7), (0xE0042008, 0x86e01c3f),
(0xE004200C, 0x00000022), (0xE0042010, 0x00072800), in that order; after
the hook those four registers hold the written values and every other
address is unchanged. -/
theorem post_connect_hook_writes :
    STM32L496xx.postConnectWrites =
      [(0xE0042004, 0x7), (0xE0042008, 0x86e01c3f),
       (0xE004200C, 0x00000022), (0xE0042010, 0x00072800)] ∧
    STM32L496xx.postConnectWrites.length = 4 ∧
    (∀ s : Nat → Nat,
      STM32L496xx.post_connect_hook s 0xE0042004 = 0x7 ∧
      STM32L496xx.post_connect_hook s 0xE0042008 = 0x86e01c3f ∧
      STM32L496xx.post_connect_hook s 0xE004200C = 0x00000022 ∧
      STM32L496xx.post_connect_hook s 0xE0042010 = 0x00072800) ∧
    (∀ s : Nat → Nat, ∀ a : Nat,
      a ≠ 0xE0042004 → a ≠ 0xE0042008 → a ≠ 0xE004200C → a ≠ 0xE0042010 →
      STM32L496xx.post_connect_hook s a = s a) := by
  refine ⟨by decide, by decide, ?_, ?_⟩
  · intro s
    refine ⟨?_, ?_, ?_, ?_⟩ <;>
      simp [STM32L496xx.post_connect_hook, STM32L496xx.postConnectWrites,
        STM32L496xx.write32, DBGMCU.CR, DBGMCU.CR_VALUE, DBGMCU.APB1FZR1,
        DBGMCU.APB1FZR1_VALUE, DBGMCU.APB1FZR2, DBGMCU.APB1FZR2_VALUE,
        DBGMCU.APB2FZR, DBGMCU.APB2FZR_VALUE]
  · intro s a h1 h2 h3 h4
    simp [STM32L496xx.post_connect_hook, STM32L496xx.postConnectWrites,
      STM32L496xx.write32, DBGMCU.CR, DBGMCU.CR_VALUE, DBGMCU.APB1FZR1,
      DBGMCU.APB1FZR1_VALUE, DBGMCU.APB1FZR2, DBGMCU.APB1FZR2_VALUE,
      DBGMCU.APB2FZR, DBGMCU.APB2FZR_VALUE, h1, h2, h3, h4]

set_option maxRecDepth 4000 in
/-- Counterexample to claim C3: reading pc_init as an offset relative to
load_address, as the Relative function addresses comment suggests, puts
the entry address at load_address + pc_init = 0x40000077, which lies
outside the loaded instruction image and outside every region of the
memory map, while pc_init itself already lies above load_address. -/
theorem entry_points_relative_counterexample :
    FLASH_ALGO.load_address + FLASH_ALGO.pc_init = 0x40000077 ∧
    ¬ (FLASH_ALGO.load_address + FLASH_ALGO.pc_init <
        FLASH_ALGO.load_address + 4 * FLASH_ALGO.instructions.length) ∧
    (∀ r ∈ STM32L496xx.MEMORY_MAP,
      ¬ r.containsAddr (FLASH_ALGO.load_address + FLASH_ALGO.pc_init)) ∧
    FLASH_ALGO.load_address ≤ FLASH_ALGO.pc_init := by
  decide

set_option maxRecDepth 4000 in
/-- Claim C3 amended: the pc_* fields of the descriptor are absolute
addresses with load_address already included: each equals load_address
plus a relative offset (0x77, 0xa1, 0x127, 0xdb, 0xb1 respectively) lying
inside the instruction image, so the absolute entry address of each entry
point is the pc_* field value itself, not load_address plus it. -/
theorem entry_points_are_absolute :
    FLASH_ALGO.pc_init = FLASH_ALGO.load_address + 0x77 ∧
    FLASH_ALGO.pc_unInit = FLASH_ALGO.load_address + 0xa1 ∧
    FLASH_ALGO.pc_program_page = FLASH_ALGO.load_address + 0x127 ∧
    FLASH_ALGO.pc_erase_sector = FLASH_ALGO.load_address + 0xdb ∧
    FLASH_ALGO.pc_eraseAll = FLASH_ALGO.load_address + 0xb1 ∧
    ∀ pc ∈ [FLASH_ALGO.pc_init, FLASH_ALGO.pc_unInit,
        FLASH_ALGO.pc_program_page, FLASH_ALGO.pc_erase_sector,
        FLASH_ALGO.pc_eraseAll],
      FLASH_ALGO.load_address ≤ pc ∧
      pc < FLASH_ALGO.load_address + 4 * FLASH_ALGO.instructions.length := by
  decide

set_option maxRecDepth 4000 in
/-- Claim C8: the two page buffers (each spanning page_size = 0x400
bytes), the loaded instruction image [0x20000000, 0x20000228) and the
stack region [end_stack, begin_stack) are pairwise disjoint, and all lie
inside the sram1 RAM region. -/
theorem ram_layout_disjoint :
    FLASH_ALGO.page_buffers = [0x20000230, 0x20000630] ∧
    FLASH_ALGO.page_size = 0x400 ∧
    4 * FLASH_ALGO.instructions.length = 0x228 ∧
    disjointIvl 0x20000230 (0x20000230 + FLASH_ALGO.page_size)
      0x20000630 (0x20000630 + FLASH_ALGO.page_size) ∧
    disjointIvl FLASH_ALGO.load_address imageEnd
      0x20000230 (0x20000230 + FLASH_ALGO.page_size) ∧
    disjointIvl FLASH_ALGO.load_address imageEnd
      0x20000630 (0x20000630 + FLASH_ALGO.page_size) ∧
    disjointIvl FLASH_ALGO.end_stack FLASH_ALGO.begin_stack
      0x20000230 (0x20000230 + FLASH_ALGO.page_size) ∧
    disjointIvl FLASH_ALGO.end_stack FLASH_ALGO.begin_stack
      0x20000630 (0x20000630 + FLASH_ALGO.page_size) ∧
    disjointIvl FLASH_ALGO.end_stack FLASH_ALGO.begin_stack
      FLASH_ALGO.load_address imageEnd ∧
    STM32L496xx.sram1Region.start ≤ FLASH_ALGO.load_address ∧
    imageEnd ≤ STM32L496xx.sram1Region.start + STM32L496xx.sram1Region.length ∧
    STM32L496xx.sram1Region.start ≤ 0x20000230 ∧
    0x20000630 + FLASH_ALGO.page_size
      ≤ STM32L496xx.sram1Region.start + STM32L496xx.sram1Region.length ∧
    STM32L496xx.sram1Region.start ≤ FLASH_ALGO.end_stack ∧
    FLASH_ALGO.begin_stack
      ≤ STM32L496xx.sram1Region.start + STM32L496xx.sram1Region.length := by
  decide

theorem chunkImage_nil (minLen : Nat) : chunkImage minLen [] = [] := by
  rw [chunkImage]
  split <;> rfl

theorem chunkImage_cons (minLen : Nat) (h : minLen ≠ 0) (a : Nat)
    (rest : List Nat) :
    chunkImage minLen (a :: rest) =
      (a :: rest).take minLen :: chunkImage minLen ((a :: rest).drop minLen) := by
  rw [chunkImage]
  simp [h]

/-- The chunks concatenate back to the original image. -/
theorem chunkImage_flatten (minLen : Nat) (h : 0 < minLen) (img : List Nat) :
    (chunkImage minLen img).flatten = img := by
  match img with
  | [] => rw [chunkImage_nil]; rfl
  | a :: rest =>
    rw [chunkImage_cons minLen (by omega) a rest, List.flatten_cons,
      chunkImage_flatten minLen h ((a :: rest).drop minLen)]
    exact List.take_append_drop minLen (a :: rest)
termination_by img.length
decreasing_by
  simp [List.length_drop]
  omega

/-- Number of chunks for the min program length 0x400 of the descriptor. -/
theorem chunkImage_length_0x400 (img : List Nat) :
    (chunkImage 0x400 img).length = (img.length + 0x3FF) / 0x400 := by
  match img with
  | [] => rw [chunkImage_nil]; rfl
  | a :: rest =>
    rw [chunkImage_cons 0x400 (by omega) a rest]
    have ih := chunkImage_length_0x400 ((a :: rest).drop 0x400)
    simp only [List.length_cons, List.length_drop] at ih ⊢
    rw [ih]
    omega
termination_by img.length
decreasing_by
  simp [List.length_drop]
  omega

/-- Claim C2: with a uniform sector size 0x800 and min_program_length
0x400, programming a 0x1000-byte image at offset 0 computes exactly the
two sectors at offsets 0x0 and 0x800 as the erase set (2 erase calls),
chunks the image into 0x1000 / min_program_length = 4 program calls, the
chunks concatenate back to the image, and the written byte count is
0x1000. -/
theorem program_scenario_0x1000 (img : List Nat) (h : img.length = 0x1000) :
    sectorsToErase 0x800 0x0 0x1000 = [0x0, 0x800] ∧
    (sectorsToErase 0x800 0x0 0x1000).length = 2 ∧
    (chunkImage FLASH_ALGO.min_program_length img).length
      = 0x1000 / FLASH_ALGO.min_program_length ∧
    0x1000 / FLASH_ALGO.min_program_length = 4 ∧
    (chunkImage FLASH_ALGO.min_program_length img).flatten = img ∧
    ((chunkImage FLASH_ALGO.min_program_length img).map List.length).sum
      = 0x1000 := by
  have hmin : FLASH_ALGO.min_program_length = 0x400 := rfl
  refine ⟨by decide, by decide, ?_, by decide, ?_, ?_⟩
  · rw [hmin, chunkImage_length_0x400, h]
  · rw [hmin]
    exact chunkImage_flatten 0x400 (by omega) img
  · rw [hmin, ← List.length_flatten, chunkImage_flatten 0x400 (by omega) img, h]

/-- Witness for C2 at a concrete 0x1000-byte image. -/
theorem program_scenario_0x1000_witness :
    (chunkImage FLASH_ALGO.min_program_length (List.replicate 0x1000 0)).length
      = 4 := by
  have h := program_scenario_0x1000 (List.replicate 0x1000 0)
    (by rw [List.length_replicate])
  exact h.2.2.1.trans h.2.2.2.1

theorem bufOf_succ (i : Nat) : bufOf (i + 1) = !bufOf i := by
  simp only [bufOf]
  rcases Nat.mod_two_eq_zero_or_one i with h | h <;>
    simp [Nat.add_mod, h]

/-- In the steady-state loop every fill is admissible, provided the buffer
to be filled next has no outstanding call. -/
theorem progLoop_fillsSafe (rem : Nat) :
    ∀ cur : Nat, ∀ p : Bool → Bool, p (bufOf (cur + 1)) = false →
      fillsSafe (progLoop cur rem) p = true := by
  induction rem with
  | zero =>
    intro cur p hp
    simp [progLoop, fillsSafe]
  | succ r ih =>
    intro cur p hp
    simp only [progLoop, fillsSafe, hp, Bool.not_false, Bool.true_and]
    apply ih
    have hflip : bufOf (cur + 1 + 1) = bufOf cur := by
      rw [bufOf_succ, bufOf_succ, Bool.not_not]
    rw [hflip]
    simp only [updatePending, bufOf_succ]
    cases bufOf cur <;> simp

/-- Claim C6: in a double-buffered programming session with the two page
buffers of the descriptor (0x20000230 and 0x20000630), for any number of
chunks, a buffer is never filled with new chunk data while a
pc_program_page call issued against that same buffer is still
outstanding. -/
theorem double_buffer_never_overwritten_early :
    FLASH_ALGO.page_buffers = [pageBufferAddr false, pageBufferAddr true] ∧
    pageBufferAddr false = 0x20000230 ∧
    pageBufferAddr true = 0x20000630 ∧
    ∀ n : Nat, fillsSafe (dbTrace n) (fun _ => false) = true := by
  refine ⟨by decide, by decide, by decide, ?_⟩
  intro n
  match n with
  | 0 => rfl
  | m + 1 =>
    simp only [dbTrace, fillsSafe, Bool.not_false, Bool.true_and]
    apply progLoop_fillsSafe
    simp only [updatePending]
    rw [bufOf_succ]
    cases bufOf 0 <;> simp
